import Mathlib

/-!
Shallow embedding of the build-time page pipeline of the MapSwipe website
project detail page (`getStaticPaths` / `getStaticProps` and the helpers they
use).  Pure data is embedded directly; network effects are modelled by passing
the upstream data snapshot and the per-URL fetch outcomes as explicit inputs;
a JS `throw` / promise rejection is modelled with `Except.error`.
-/

namespace ProjectDetailPage

/-- A JS number as it arises from `Number(string)` conversion of a
`content-length` header: either an actual (non-negative integer) value or
`NaN`.  The full JS `Number` conversion also accepts signed, fractional,
and hexadecimal forms, which cannot occur as `content-length` values; on the
header domain (decimal-digit strings, the empty string, anything else) this
model agrees with JS. -/
inductive JsNum where
  | nan : JsNum
  | num (n : Nat) : JsNum
deriving DecidableEq, Repr

/-- Numeric value of a string of decimal digits. -/
def digitsVal (cs : List Char) : Nat :=
  cs.foldl (fun n c => n * 10 + (c.toNat - ('0').toNat)) 0

/-- Strip leading and trailing spaces, as JS `Number` does before parsing. -/
def trimSpaces (cs : List Char) : List Char :=
  ((cs.dropWhile (fun c => c = ' ')).reverse.dropWhile (fun c => c = ' ')).reverse

/-- Model of the JS `Number(s)` conversion on the `content-length` header
domain: the empty (or all-space) string converts to `0`, a string of decimal
digits to its value, and anything else to `NaN`. -/
def jsStringToNumber (s : String) : JsNum :=
  let t := trimSpaces s.data
  if t.isEmpty then JsNum.num 0
  else if t.all Char.isDigit then JsNum.num (digitsVal t)
  else JsNum.nan

/-- JS `Math.round`, which rounds half-way cases up: `Math.round x = ⌊x + 1/2⌋`.
Written on the numerator/denominator representation (integer `/` is euclidean
division, which is floor division for the positive denominator) so that it
evaluates by kernel reduction; `jsMathRound_eq_round` below identifies it with
`round`. -/
def jsMathRound (q : ℚ) : Int :=
  (2 * q.num + (q.den : Int)) / (2 * (q.den : Int))

/-- Multiplication of rationals written via `mkRat` so that it evaluates by
kernel reduction; `jsMul_eq` below identifies it with `*`. -/
def jsMul (a b : ℚ) : ℚ :=
  mkRat (a.num * b.num) (a.den * b.den)

/-- Project status enumeration.  Modelled from the spec: `ProjectStatus` is
imported from `utils/common`, which is outside the sources at hand; the spec
gives the value set draft | active | finished | archived. -/
inductive ProjectStatus where
  | draft : ProjectStatus
  | active : ProjectStatus
  | finished : ProjectStatus
  | archived : ProjectStatus
deriving DecidableEq, Repr, Inhabited

/-- Opaque GeoJSON polygon geometry payload; the pipeline only passes it
through, so its internal structure is irrelevant and it is modelled as an
opaque token. -/
abbrev ProjectGeometry := String

/-- Opaque history payload (`getProjectHistory` result), passed through. -/
abbrev ProjectHistory := String

/-- The `properties` object of one feature of the project centroid dataset,
with exactly the fields the page pipeline reads. -/
structure CentroidProperties where
  project_id : String
  name : String
  status : ProjectStatus
  progress : Option ℚ
  area_sqkm : Option ℚ
  number_of_users : Option Int
  project_details : String
deriving DecidableEq, Repr

/-- One feature of the centroid (project summary) collection. -/
structure CentroidFeature where
  properties : CentroidProperties
deriving DecidableEq, Repr

/-- The project centroid dataset returned by `getProjectCentroids`. -/
structure CentroidCollection where
  features : List CentroidFeature
deriving DecidableEq, Repr

/-- The `properties` object of one feature of the geometry dataset. -/
structure GeometryProperties where
  project_id : String
deriving DecidableEq, Repr

/-- One feature of the geometry collection. -/
structure GeometryFeature where
  properties : GeometryProperties
  geometry : ProjectGeometry
deriving DecidableEq, Repr

/-- The project geometry dataset returned by `getProjectGeometries`. -/
structure GeometryCollection where
  features : List GeometryFeature
deriving DecidableEq, Repr

/-- Modelled from the spec: `serverSideTranslations` (next-i18next, outside
the sources at hand) attaches the translation bundle determined by the locale
and the requested namespaces; it is modelled as the pure record of those two
inputs. -/
structure Translations where
  locale : String
  namespaces : List String
deriving DecidableEq, Repr, Inhabited

/-- Embeds `serverSideTranslations(locale, [...])`. -/
def serverSideTranslations (locale : String) (namespaces : List String) : Translations :=
  { locale := locale, namespaces := namespaces }

/-- One `params` element produced by `getStaticPaths`. -/
structure PathParams where
  id : String
  locale : String
deriving DecidableEq, Repr

/-- Embeds `getStaticPaths` (lines 138-155): for every feature of the centroid
collection and every configured locale, one `{ id, locale }` params object.
The locale list, read from `next-i18next.config` in the source, is passed as
an explicit input. -/
def getStaticPaths (locales : List String) (projects : CentroidCollection) : List PathParams :=
  projects.features.flatMap
    (fun feature => locales.map
      (fun lng => { id := feature.properties.project_id, locale := lng }))

/-- The closed set of 10 downloadable artifact kinds. -/
inductive DownloadType where
  | aggregated_results : DownloadType
  | aggregated_results_with_geometry : DownloadType
  | hot_tasking_manager_geometries : DownloadType
  | moderate_to_high_agreement_yes_maybe_geometries : DownloadType
  | groups : DownloadType
  | history : DownloadType
  | results : DownloadType
  | tasks : DownloadType
  | users : DownloadType
  | area_of_interest : DownloadType
deriving DecidableEq, Repr

/-- The file-kind tag of a download entry. -/
inductive DownloadFileType where
  | geojson : DownloadFileType
  | csv : DownloadFileType
deriving DecidableEq, Repr

/-- A download catalogue entry before probing (`Omit<UrlInfo, 'size' | 'ok'>`). -/
structure UrlTemplate where
  name : DownloadType
  url : String
  type : DownloadFileType
deriving DecidableEq, Repr

/-- A probed download entry (`UrlInfo`). -/
structure UrlInfo where
  name : DownloadType
  url : String
  type : DownloadFileType
  ok : Bool
  size : JsNum
deriving DecidableEq, Repr

/-- Outcome of one `fetch(url, { method: 'HEAD' })` call: either the promise
resolves with a response carrying `ok` and an optional `content-length`
header, or it rejects (network error / timeout). -/
inductive FetchOutcome where
  | resolve (ok : Bool) (contentLength : Option String) : FetchOutcome
  | reject : FetchOutcome
deriving DecidableEq, Repr

/-- The behaviour of the asset host during one build: the fetch outcome for
each URL. -/
abbrev FetchWorld := String → FetchOutcome

/-- An error escaping the per-page build: the explicit
`throw new Error(...)` for a missing project, or a rejected fetch promise
propagating through `Promise.all` / `await`. -/
inductive BuildError where
  | projectNotFound (projectId : String) : BuildError
  | fetchRejected (url : String) : BuildError
deriving DecidableEq, Repr

/-- Embeds the static `urls` array (lines 188-239): the fixed catalogue of 10
download descriptors, with the project identifier substituted into each URL
template. -/
def downloadCatalogue (projectId : String) : List UrlTemplate :=
  [ { name := DownloadType.aggregated_results,
      url := ("https://apps.mapswipe.org/api/agg_results/agg_results_") ++ projectId ++ (".csv.gz"),
      type := DownloadFileType.csv },
    { name := DownloadType.aggregated_results_with_geometry,
      url := ("https://apps.mapswipe.org/api/agg_results/agg_results_") ++ projectId ++ ("_geom.geojson.gz"),
      type := DownloadFileType.geojson },
    { name := DownloadType.hot_tasking_manager_geometries,
      url := ("https://apps.mapswipe.org/api/hot_tm/hot_tm_") ++ projectId ++ (".geojson"),
      type := DownloadFileType.geojson },
    { name := DownloadType.moderate_to_high_agreement_yes_maybe_geometries,
      url := ("https://apps.mapswipe.org/api/yes_maybe/yes_maybe_") ++ projectId ++ (".geojson"),
      type := DownloadFileType.geojson },
    { name := DownloadType.groups,
      url := ("https://apps.mapswipe.org/api/groups/groups_") ++ projectId ++ (".csv.gz"),
      type := DownloadFileType.geojson },
    { name := DownloadType.history,
      url := ("https://apps.mapswipe.org/api/history/history_") ++ projectId ++ (".csv"),
      type := DownloadFileType.geojson },
    { name := DownloadType.results,
      url := ("https://apps.mapswipe.org/api/results/results_") ++ projectId ++ (".csv.gz"),
      type := DownloadFileType.geojson },
    { name := DownloadType.tasks,
      url := ("https://apps.mapswipe.org/api/tasks/tasks_") ++ projectId ++ (".csv.gz"),
      type := DownloadFileType.geojson },
    { name := DownloadType.users,
      url := ("https://apps.mapswipe.org/api/users/users_") ++ projectId ++ (".csv.gz"),
      type := DownloadFileType.geojson },
    { name := DownloadType.area_of_interest,
      url := ("https://apps.mapswipe.org/api/project_geometries/project_geom_") ++ projectId ++ (".geojson"),
      type := DownloadFileType.geojson } ]

/-- Embeds the body of one element of `urlResponsePromises` (lines 241-248):
`fetch` the URL; on resolution extend the entry with
`ok: res.ok, size: Number(res.headers.get('content-length') ?? '0')`;
a rejection of `fetch` rejects this probe's promise. -/
def probeUrl (world : FetchWorld) (u : UrlTemplate) : Except BuildError UrlInfo :=
  match world u.url with
  | FetchOutcome.reject => Except.error (BuildError.fetchRejected u.url)
  | FetchOutcome.resolve ok contentLength =>
      Except.ok { name := u.name, url := u.url, type := u.type, ok := ok,
                  size := jsStringToNumber (contentLength.getD ("0")) }

/-- `Promise.all`: resolves with the list of values, in the original order,
when every promise resolves; rejects when any promise rejects. -/
def promiseAll {ε : Type} {α : Type} : List (Except ε α) → Except ε (List α)
  | [] => Except.ok []
  | p :: ps =>
    match p with
    | Except.error e => Except.error e
    | Except.ok a =>
      match promiseAll ps with
      | Except.error e => Except.error e
      | Except.ok rest => Except.ok (a :: rest)

/-- Embeds `urlResponsePromises` (line 241): one probe per catalogue entry. -/
def urlResponsePromises (world : FetchWorld) (urls : List UrlTemplate) : List (Except BuildError UrlInfo) :=
  urls.map (probeUrl world)

/-- Embeds `await Promise.all(urlResponsePromises)` (line 250) applied to the
catalogue of one project: the asset availability prober. -/
def assetProber (world : FetchWorld) (projectId : String) : Except BuildError (List UrlInfo) :=
  promiseAll (urlResponsePromises world (downloadCatalogue projectId))

/-- Split a character sequence at newline characters, like the JS string
`split('\n')`: `"a\nb"` gives two lines, a trailing newline gives a final
empty line, and the empty string gives one empty line. -/
def splitNewlines (cs : List Char) : List (List Char) :=
  match cs with
  | [] => [[]]
  | c :: rest =>
    let r := splitNewlines rest
    if c = '\n' then [] :: r
    else
      match r with
      | [] => [[c]]
      | l :: ls => (c :: l) :: ls

/-- Join lines with newline characters (inverse of `splitNewlines`). -/
def joinLines : List (List Char) → List Char
  | [] => []
  | [l] => l
  | l :: ls => l ++ '\n' :: joinLines ls

/-- The frontmatter delimiter line `---`. -/
def fmDelim : List Char := ['-', '-', '-']

/-- Split a line list at the first `---` delimiter line: returns the lines
before it and the lines after it, or `none` when no delimiter line occurs. -/
def splitFrontmatter : List (List Char) → Option (List (List Char) × List (List Char))
  | [] => none
  | l :: ls =>
    if l = fmDelim then some ([], ls)
    else (splitFrontmatter ls).map (fun p => (l :: p.1, p.2))

/-- Frontmatter stripping at the line level: when the document opens with a
`---` delimiter line and a closing delimiter line follows, the content is the
lines after the closing delimiter; otherwise the whole document is content. -/
def matterContentLines (ls : List (List Char)) : List (List Char) :=
  match ls with
  | [] => ls
  | l0 :: rest =>
    if l0 = fmDelim then
      match splitFrontmatter rest with
      | some (_, body) => body
      | none => ls
    else ls

/-- Modelled from the spec: `matter(...)` (gray-matter, outside the sources at
hand) splits the metadata header from the body using the standard `---`
frontmatter delimiter convention; `.content` is the body with the header
discarded. -/
def matterContent (s : String) : String :=
  String.mk (joinLines (matterContentLines (splitNewlines s.data)))

/-- Embeds `.replace(/\\n/g, '\n')` (line 185): every literal
backslash-n two-character sequence becomes a real newline character. -/
def replaceEscapedNewlines : List Char → List Char
  | [] => []
  | '\\' :: 'n' :: rest => '\n' :: replaceEscapedNewlines rest
  | c :: rest => c :: replaceEscapedNewlines rest

/-- A line that markdown treats as blank: empty or all spaces. -/
def isBlankLine (l : List Char) : Bool :=
  l.all (fun c => c = ' ')

/-- Close the paragraph under construction, if any, emitting a `<p>` block. -/
def flushPara (para : Option (List (List Char))) (blocks : List (List Char)) : List (List Char) :=
  match para with
  | none => blocks
  | some pls => (("<p>").data ++ joinLines pls ++ ("</p>").data) :: blocks

/-- One right-to-left step of block grouping: a blank line closes the open
paragraph, a `# ` line yields an `<h1>` block, and any other line joins the
paragraph below it. -/
def mdCollect (l : List Char) (st : Option (List (List Char)) × List (List Char)) :
    Option (List (List Char)) × List (List Char) :=
  if isBlankLine l then (none, flushPara st.1 st.2)
  else
    match l with
    | '#' :: ' ' :: rest => (none, (("<h1>").data ++ rest ++ ("</h1>").data) :: flushPara st.1 st.2)
    | _ =>
      match st.1 with
      | some pls => (some (l :: pls), st.2)
      | none => (some [l], st.2)

/-- Modelled from the spec: `remark().use(html).process(...)` (remark and
remark-html, outside the sources at hand) converts markdown to block-level
HTML.  The model covers the constructs the spec exercises: a `# ` line renders
as an `<h1>` heading block, consecutive non-blank lines render as one `<p>`
paragraph block, blocks are emitted in document order separated by newlines
with a trailing newline, and whitespace-only input renders as the empty
string. -/
def markdownToHtml (s : String) : String :=
  let st := (splitNewlines s.data).foldr mdCollect (none, [])
  match flushPara st.1 st.2 with
  | [] => ""
  | blocks => String.mk (joinLines blocks ++ ['\n'])

/-- Embeds lines 181-186: strip the frontmatter header, normalize literal
escaped-newline sequences in the body to real line breaks, and convert the
result from markdown to HTML. -/
def contentRenderer (raw : String) : String :=
  markdownToHtml (String.mk (replaceEscapedNewlines (matterContent raw).data))

/-- Whether `needle` occurs as a contiguous subsequence of the character
list. -/
def containsChars (needle : List Char) : List Char → Bool
  | [] => needle.isEmpty
  | c :: rest => needle.isPrefixOf (c :: rest) || containsChars needle rest

/-- Whether `needle` occurs as a substring of `hay`. -/
def hasSubstr (hay needle : String) : Bool :=
  containsChars needle.data hay.data

/-- The assembled page data (`Props` of the page, lines 50-60, together with
the `history` entry the source adds to the returned props object). -/
structure Props where
  translations : Translations
  totalProgress : Option Int
  totalArea : Int
  totalContributors : Option Int
  name : String
  description : String
  status : ProjectStatus
  projectGeoJSON : Option ProjectGeometry
  history : ProjectHistory
  urls : List UrlInfo
deriving DecidableEq, Repr, Inhabited

/-- The upstream data snapshot for one build: the centroid dataset returned by
`getProjectCentroids`, the geometry dataset returned by
`getProjectGeometries`, and the per-identifier history payload returned by
`getProjectHistory`. -/
structure Snapshot where
  centroids : CentroidCollection
  geometries : GeometryCollection
  historyOf : String → ProjectHistory

/-- Embeds `getStaticProps` (lines 157-271).  The upstream snapshot and the
asset host behaviour are explicit inputs; `context?.params?.locale` and
`context?.params?.id` are the `locale` and `projectId` arguments.  The source
throws when the project is missing from the centroid collection, and a
rejected probe promise propagates through `await Promise.all`; both are
`Except.error` here. -/
def getStaticProps (snapshot : Snapshot) (world : FetchWorld)
    (locale : String) (projectId : String) : Except BuildError Props :=
  let translations := serverSideTranslations locale [("project"), ("common")]
  match snapshot.centroids.features.find?
      (fun feature => feature.properties.project_id == projectId) with
  | none => Except.error (BuildError.projectNotFound projectId)
  | some project =>
    let geojson := (snapshot.geometries.features.find?
        (fun feature => feature.properties.project_id == projectId)).map
        GeometryFeature.geometry
    let historyJSON := snapshot.historyOf project.properties.project_id
    let contentHtml := contentRenderer project.properties.project_details
    match assetProber world projectId with
    | Except.error e => Except.error e
    | Except.ok urlResponses =>
      Except.ok
        { translations := translations
          totalProgress :=
            match project.properties.progress with
            | some p => some (jsMathRound (jsMul p 100))
            | none => none
          totalArea := jsMathRound ((project.properties.area_sqkm).getD 0)
          totalContributors := project.properties.number_of_users
          name := project.properties.name
          description := contentHtml
          status := project.properties.status
          projectGeoJSON := geojson
          history := historyJSON
          urls := urlResponses }

/-- The page data record `getStaticProps` assembles once the project summary
record and the probe results are at hand (the object literal of lines
252-270). -/
def assembledProps (snapshot : Snapshot) (locale : String) (projectId : String)
    (project : CentroidFeature) (rs : List UrlInfo) : Props :=
  { translations := serverSideTranslations locale [("project"), ("common")]
    totalProgress :=
      match project.properties.progress with
      | some p => some (jsMathRound (jsMul p 100))
      | none => none
    totalArea := jsMathRound ((project.properties.area_sqkm).getD 0)
    totalContributors := project.properties.number_of_users
    name := project.properties.name
    description := contentRenderer project.properties.project_details
    status := project.properties.status
    projectGeoJSON := (snapshot.geometries.features.find?
        (fun feature => feature.properties.project_id == projectId)).map
        GeometryFeature.geometry
    history := snapshot.historyOf project.properties.project_id
    urls := rs }

/-! Concrete fixtures used to instantiate the theorems below. -/

/-- A raw description with a frontmatter header and a markdown body. -/
def detailsA : String := "---\ntitle: x\n---\n# Hello\nWorld"

/-- A fully populated project summary feature. -/
def projectA : CentroidFeature :=
  { properties :=
    { project_id := "pr1", name := "Project One", status := ProjectStatus.active,
      progress := some (mkRat 4567 10000), area_sqkm := some (mkRat 123 10),
      number_of_users := some 42, project_details := detailsA } }

/-- A project summary feature with every optional numeric field absent. -/
def projectB : CentroidFeature :=
  { properties :=
    { project_id := "pr2", name := "Project Two", status := ProjectStatus.finished,
      progress := none, area_sqkm := none,
      number_of_users := none, project_details := "" } }

/-- A geometry feature for `pr1` only. -/
def geomA : GeometryFeature :=
  { properties := { project_id := "pr1" }, geometry := "POLYGON-1" }

/-- A snapshot holding `pr1` and `pr2`, with geometry only for `pr1`. -/
def snapAB : Snapshot :=
  { centroids := { features := [projectA, projectB] },
    geometries := { features := [geomA] },
    historyOf := fun _ => "hist" }

/-- An asset host on which every probe resolves successfully with a
`content-length` of 17. -/
def worldAllOk : FetchWorld := fun _ => FetchOutcome.resolve true (some ("17"))

/-- An asset host on which every probe resolves with a non-success status
while still carrying a `content-length` of 123. -/
def worldNotOk : FetchWorld := fun _ => FetchOutcome.resolve false (some ("123"))

/-- The first catalogue URL of project `pr1`. -/
def rejectUrl : String := "https://apps.mapswipe.org/api/agg_results/agg_results_pr1.csv.gz"

/-- An asset host on which exactly the probe of `rejectUrl` suffers a network
error (its fetch promise rejects) and every other probe succeeds. -/
def worldRejectOne : FetchWorld :=
  fun url => if url = rejectUrl then FetchOutcome.reject
             else FetchOutcome.resolve true (some ("5"))

/-- The first catalogue entry of project `pr1`. -/
def u0 : UrlTemplate :=
  { name := DownloadType.aggregated_results, url := rejectUrl,
    type := DownloadFileType.csv }

/-- An asset host whose responses carry a non-numeric `content-length`. -/
def worldNan : FetchWorld := fun _ => FetchOutcome.resolve false (some ("abc"))

/-- The page data built for `pr1` against `worldAllOk`. -/
def propsA : Props :=
  ((getStaticProps snapAB worldAllOk ("en") ("pr1")).toOption).getD default

/-- The page data built for `pr2` against `worldAllOk`. -/
def propsB : Props :=
  ((getStaticProps snapAB worldAllOk ("en") ("pr2")).toOption).getD default

/-- The page data built for `pr1` against `worldNotOk`. -/
def propsC : Props :=
  ((getStaticProps snapAB worldNotOk ("en") ("pr1")).toOption).getD default

/-- The prober results for `pr1` against `worldNotOk`. -/
def rsNotOk : List UrlInfo :=
  ((assetProber worldNotOk ("pr1")).toOption).getD []

/-- The prober results for `pr1` against `worldAllOk`. -/
def rsAllOk : List UrlInfo :=
  ((assetProber worldAllOk ("pr1")).toOption).getD []

/-! General lemmas about the embedded operations. -/

/-- `jsMul` is multiplication on `ℚ`. -/
theorem jsMul_eq (a b : ℚ) : jsMul a b = a * b := by
  unfold jsMul
  conv_rhs => rw [← Rat.mkRat_self a, ← Rat.mkRat_self b]
  rw [Rat.mkRat_mul_mkRat]

/-- `jsMathRound` is rounding with half-way cases up, exactly `round` on `ℚ`
(and exactly JS `Math.round`). -/
theorem jsMathRound_eq_round (q : ℚ) : jsMathRound q = round q := by
  unfold jsMathRound
  rw [round_eq]
  have hd : ((q.den : ℚ)) ≠ 0 := by exact_mod_cast q.den_nz
  have hnum : (q.num : ℚ) = q * (q.den : ℚ) := (div_eq_iff hd).mp (Rat.num_div_den q)
  have h : q + 1/2 = (((2 * q.num + (q.den : Int) : Int) : ℚ)) / (((2 * q.den : ℕ) : ℚ)) := by
    push_cast
    field_simp
    linear_combination (-4:ℚ) * hnum
  rw [h, Rat.floor_intCast_div_natCast]
  push_cast
  ring_nf

/-- When `Promise.all` resolves over a mapped list, the results correspond
pointwise, in order, to the inputs. -/
theorem promiseAll_ok_forall₂ {ε α β : Type} (f : α → Except ε β) :
    ∀ (l : List α) (rs : List β), promiseAll (l.map f) = Except.ok rs →
      List.Forall₂ (fun a b => f a = Except.ok b) l rs := by
  intro l
  induction l with
  | nil =>
    intro rs h
    simp [promiseAll] at h
    simp [← h]
  | cons a l ih =>
    intro rs h
    simp only [List.map_cons, promiseAll] at h
    cases hfa : f a with
    | error e => rw [hfa] at h; exact absurd h (by simp)
    | ok b =>
      rw [hfa] at h
      cases hrest : promiseAll (l.map f) with
      | error e => rw [hrest] at h; exact absurd h (by simp)
      | ok rest =>
        rw [hrest] at h
        simp only [Except.ok.injEq] at h
        subst h
        exact List.Forall₂.cons hfa (ih rest hrest)

/-- When every element maps to a resolving promise, `Promise.all` resolves. -/
theorem promiseAll_ok_of_forall {ε α β : Type} (f : α → Except ε β) :
    ∀ (l : List α), (∀ a ∈ l, ∃ b, f a = Except.ok b) →
      ∃ rs, promiseAll (l.map f) = Except.ok rs := by
  intro l
  induction l with
  | nil => intro _; exact ⟨[], rfl⟩
  | cons a l ih =>
    intro h
    obtain ⟨b, hb⟩ := h a (by simp)
    obtain ⟨rest, hrest⟩ := ih (fun x hx => h x (by simp [hx]))
    exact ⟨b :: rest, by simp [promiseAll, hb, hrest]⟩

/-- When some element maps to a rejecting promise, `Promise.all` rejects. -/
theorem promiseAll_error_of_mem {ε α β : Type} (f : α → Except ε β) :
    ∀ (l : List α) (a : α) (e : ε), a ∈ l → f a = Except.error e →
      ∃ d, promiseAll (l.map f) = Except.error d := by
  intro l
  induction l with
  | nil => intro a e ha _; exact absurd ha (by simp)
  | cons x l ih =>
    intro a e ha hf
    cases hfx : f x with
    | error d => exact ⟨d, by simp [promiseAll, hfx]⟩
    | ok b =>
      have hal : a ∈ l := by
        rcases List.mem_cons.mp ha with h | h
        · subst h; rw [hf] at hfx; exact absurd hfx (by simp)
        · exact h
      obtain ⟨d, hd⟩ := ih a e hal hf
      exact ⟨d, by simp [promiseAll, hfx, hd]⟩

/-- A resolved fetch gives exactly the probe result the source constructs. -/
theorem probeUrl_resolve (world : FetchWorld) (u : UrlTemplate) (ok : Bool)
    (cl : Option String) (h : world u.url = FetchOutcome.resolve ok cl) :
    probeUrl world u = Except.ok
      { name := u.name, url := u.url, type := u.type, ok := ok,
        size := jsStringToNumber (cl.getD ("0")) } := by
  simp [probeUrl, h]

/-- A probe on a non-rejecting URL resolves. -/
theorem probeUrl_ok_of_not_reject (world : FetchWorld) (u : UrlTemplate)
    (h : world u.url ≠ FetchOutcome.reject) : ∃ r, probeUrl world u = Except.ok r := by
  cases hw : world u.url with
  | resolve ok cl => exact ⟨_, probeUrl_resolve world u ok cl hw⟩
  | reject => exact absurd hw h

/-- A resolved probe keeps the descriptor's name, URL and file kind. -/
theorem probeUrl_ok_fields (world : FetchWorld) (u : UrlTemplate) (r : UrlInfo)
    (h : probeUrl world u = Except.ok r) :
    r.name = u.name ∧ r.url = u.url ∧ r.type = u.type := by
  cases hw : world u.url with
  | resolve ok cl =>
    rw [probeUrl_resolve world u ok cl hw] at h
    simp only [Except.ok.injEq] at h
    subst h
    exact ⟨rfl, rfl, rfl⟩
  | reject => simp [probeUrl, hw] at h

/-- The download catalogue has exactly 10 entries for every identifier. -/
theorem downloadCatalogue_length (projectId : String) :
    (downloadCatalogue projectId).length = 10 := rfl

/-- When the prober resolves, its results correspond pointwise, in catalogue
order, to resolving probes of the catalogue entries. -/
theorem assetProber_ok_forall₂ (world : FetchWorld) (projectId : String)
    (rs : List UrlInfo) (h : assetProber world projectId = Except.ok rs) :
    List.Forall₂ (fun u r => probeUrl world u = Except.ok r)
      (downloadCatalogue projectId) rs :=
  promiseAll_ok_forall₂ (probeUrl world) (downloadCatalogue projectId) rs h

/-- Building a page succeeds exactly by finding the summary record and having
every probe settle; the result is then the assembled record. -/
theorem getStaticProps_ok_elim (snapshot : Snapshot) (world : FetchWorld)
    (locale : String) (projectId : String) (props : Props)
    (h : getStaticProps snapshot world locale projectId = Except.ok props) :
    ∃ project rs,
      snapshot.centroids.features.find?
        (fun feature => feature.properties.project_id == projectId) = some project ∧
      assetProber world projectId = Except.ok rs ∧
      props = assembledProps snapshot locale projectId project rs := by
  cases hfind : snapshot.centroids.features.find?
      (fun feature => feature.properties.project_id == projectId) with
  | none =>
    rw [getStaticProps, hfind] at h
    exact absurd h (by simp)
  | some project =>
    rw [getStaticProps, hfind] at h
    cases hprob : assetProber world projectId with
    | error e =>
      rw [hprob] at h
      exact absurd h (by simp)
    | ok rs =>
      rw [hprob] at h
      simp only [Except.ok.injEq] at h
      exact ⟨project, rs, rfl, rfl, h.symm⟩

/-- Conversely, a found summary record plus a settling prober build a page. -/
theorem getStaticProps_ok_intro (snapshot : Snapshot) (world : FetchWorld)
    (locale : String) (projectId : String) (project : CentroidFeature)
    (rs : List UrlInfo)
    (hfind : snapshot.centroids.features.find?
      (fun feature => feature.properties.project_id == projectId) = some project)
    (hprob : assetProber world projectId = Except.ok rs) :
    getStaticProps snapshot world locale projectId =
      Except.ok (assembledProps snapshot locale projectId project rs) := by
  rw [getStaticProps, hfind, hprob]
  rfl

/-- Splitting at the frontmatter delimiter finds the first delimiter line. -/
theorem splitFrontmatter_append (hs bs : List (List Char)) (h : fmDelim ∉ hs) :
    splitFrontmatter (hs ++ fmDelim :: bs) = some (hs, bs) := by
  induction hs with
  | nil => simp [splitFrontmatter]
  | cons l ls ih =>
    have hl : l ≠ fmDelim := by
      intro he
      exact h (by simp [he])
    have hls : fmDelim ∉ ls := fun hm => h (by simp [hm])
    simp [splitFrontmatter, hl, ih hls]

/-! Claim theorems. -/

/-- C2: for every project identifier with no matching summary record in the
fetched centroid collection, the per-page build fails with the NotFound error
(and hence produces no page data record). -/
theorem c2_missing_project_is_fatal (snapshot : Snapshot) (world : FetchWorld)
    (locale : String) (projectId : String)
    (habs : ∀ f ∈ snapshot.centroids.features, f.properties.project_id ≠ projectId) :
    getStaticProps snapshot world locale projectId =
      Except.error (BuildError.projectNotFound projectId) := by
  have hfind : snapshot.centroids.features.find?
      (fun feature => feature.properties.project_id == projectId) = none :=
    List.find?_eq_none.mpr (fun f hf => by simpa using habs f hf)
  rw [getStaticProps, hfind]

/-- Witness for C2 at the concrete snapshot `snapAB` and the absent
identifier `zzz`. -/
theorem c2_witness :
    (∀ f ∈ snapAB.centroids.features, f.properties.project_id ≠ ("zzz")) ∧
    getStaticProps snapAB worldAllOk ("en") ("zzz") =
      Except.error (BuildError.projectNotFound ("zzz")) :=
  ⟨by decide, c2_missing_project_is_fatal snapAB worldAllOk ("en") ("zzz") (by decide)⟩

/-- C3: whenever the asset prober returns a result list, that list has exactly
10 entries, corresponding one-to-one and in order to the fixed download
catalogue, regardless of each probe's `ok` outcome. -/
theorem c3_prober_result_shape (world : FetchWorld) (projectId : String)
    (rs : List UrlInfo) (h : assetProber world projectId = Except.ok rs) :
    rs.length = 10 ∧
    List.Forall₂
      (fun (u : UrlTemplate) (r : UrlInfo) =>
        r.name = u.name ∧ r.url = u.url ∧ r.type = u.type)
      (downloadCatalogue projectId) rs := by
  have h2 := assetProber_ok_forall₂ world projectId rs h
  have hlen : rs.length = 10 := by
    rw [← h2.length_eq]
    exact downloadCatalogue_length projectId
  exact ⟨hlen, List.Forall₂.imp (fun u r hur => probeUrl_ok_fields world u r hur) h2⟩

/-- Witness for C3 at the concrete world `worldNotOk`, on which every probe
reports a non-success status yet the prober still returns all 10 rows. -/
theorem c3_witness :
    (assetProber worldNotOk ("pr1") = Except.ok rsNotOk) ∧
    (rsNotOk.length = 10 ∧
      List.Forall₂
        (fun (u : UrlTemplate) (r : UrlInfo) =>
          r.name = u.name ∧ r.url = u.url ∧ r.type = u.type)
        (downloadCatalogue ("pr1")) rsNotOk) :=
  ⟨rfl, c3_prober_result_shape worldNotOk ("pr1") rsNotOk rfl⟩

/-- C10: a resolved probe records as `size` the JS numeric conversion of the
`content-length` header, with the string `0` substituted only when the header
is absent; a present but non-numeric header therefore yields `NaN`, not `0`,
and a non-success (`ok = false`) response with a header still reports the
header's value. -/
theorem c10_byte_size_header (world : FetchWorld) (u : UrlTemplate) (ok : Bool)
    (cl : Option String) (h : world u.url = FetchOutcome.resolve ok cl) :
    ∃ r, probeUrl world u = Except.ok r ∧
      r.ok = ok ∧
      r.size = jsStringToNumber (cl.getD ("0")) ∧
      (cl = none → r.size = JsNum.num 0) ∧
      (∀ s, cl = some s → r.size = jsStringToNumber s) ∧
      (∀ s, cl = some s → (trimSpaces s.data).isEmpty = false →
        (trimSpaces s.data).all Char.isDigit = false → r.size = JsNum.nan) := by
  refine ⟨_, probeUrl_resolve world u ok cl h, rfl, rfl, ?_, ?_, ?_⟩
  · rintro rfl
    rfl
  · rintro s rfl
    rfl
  · rintro s rfl h1 h2
    simp [jsStringToNumber, h1, h2]

/-- Witness for C10: a non-success response carrying `content-length: 123`
reports size 123 (not 0), and a non-numeric header converts to `NaN`. -/
theorem c10_witness :
    (worldNotOk u0.url = FetchOutcome.resolve false (some ("123"))) ∧
    (∃ r, probeUrl worldNotOk u0 = Except.ok r ∧
      r.ok = false ∧
      r.size = jsStringToNumber ((some ("123")).getD ("0")) ∧
      ((some ("123")) = none → r.size = JsNum.num 0) ∧
      (∀ s, (some ("123")) = some s → r.size = jsStringToNumber s) ∧
      (∀ s, (some ("123")) = some s → (trimSpaces s.data).isEmpty = false →
        (trimSpaces s.data).all Char.isDigit = false → r.size = JsNum.nan)) ∧
    (probeUrl worldNotOk u0).map UrlInfo.size = Except.ok (JsNum.num 123) ∧
    (probeUrl worldNan u0).map UrlInfo.size = Except.ok JsNum.nan :=
  ⟨rfl, c10_byte_size_header worldNotOk u0 false (some ("123")) rfl,
    by rfl, by rfl⟩

/-- C1 (amended): a probe whose response has a non-success status does not
throw and leaves the other probes untouched; its row records `ok = false`
with `size` the numeric value of its `content-length` header (`0` only when
the header is absent).  A probe whose fetch rejects (network error or
timeout) is uncaught: the rejection escapes the prober, so a single rejected
probe fails the whole per-page build. -/
theorem c1_probe_failure_semantics (world : FetchWorld) (projectId : String) :
    ((∀ u ∈ downloadCatalogue projectId, world u.url ≠ FetchOutcome.reject) →
      ∃ rs, assetProber world projectId = Except.ok rs ∧
        List.Forall₂
          (fun (u : UrlTemplate) (r : UrlInfo) =>
            ∀ ok cl, world u.url = FetchOutcome.resolve ok cl →
              r.ok = ok ∧ r.size = jsStringToNumber (cl.getD ("0")))
          (downloadCatalogue projectId) rs) ∧
    ((∃ u ∈ downloadCatalogue projectId, world u.url = FetchOutcome.reject) →
      ∃ e, assetProber world projectId = Except.error e) := by
  constructor
  · intro hall
    obtain ⟨rs, hrs⟩ := promiseAll_ok_of_forall (probeUrl world)
      (downloadCatalogue projectId)
      (fun u hu => probeUrl_ok_of_not_reject world u (hall u hu))
    refine ⟨rs, hrs, ?_⟩
    have h2 := promiseAll_ok_forall₂ (probeUrl world) (downloadCatalogue projectId) rs hrs
    refine List.Forall₂.imp ?_ h2
    intro u r hur ok cl hw
    rw [probeUrl_resolve world u ok cl hw] at hur
    simp only [Except.ok.injEq] at hur
    rw [← hur]
    exact ⟨rfl, rfl⟩
  · rintro ⟨u, hu, hw⟩
    have hp : probeUrl world u = Except.error (BuildError.fetchRejected u.url) := by
      simp [probeUrl, hw]
    exact promiseAll_error_of_mem (probeUrl world) (downloadCatalogue projectId)
      u (BuildError.fetchRejected u.url) hu hp

/-- Counterexample for C1 as stated: on `worldRejectOne` exactly one of the
10 probes (a network error on the first catalogue URL) rejects, and the whole
per-page build for `pr1` fails rather than recording a `reachable = false`
row; moreover on `worldNotOk` a failed (non-success) probe records
`byteSize = 123`, not `0`, because its `content-length` header is present. -/
theorem c1_counterexample :
    (((downloadCatalogue ("pr1")).filter
        (fun u => worldRejectOne u.url == FetchOutcome.reject)).length = 1) ∧
    getStaticProps snapAB worldRejectOne ("en") ("pr1") =
      Except.error (BuildError.fetchRejected rejectUrl) ∧
    (assetProber worldNotOk ("pr1") = Except.ok rsNotOk ∧
      rsNotOk.head?.map UrlInfo.ok = some false ∧
      rsNotOk.head?.map UrlInfo.size = some (JsNum.num 123) ∧
      JsNum.num 123 ≠ JsNum.num 0) := by
  refine ⟨by decide, by rfl, rfl, by decide, by decide, by decide⟩

/-- Witness for C1 (amended), applying both halves: on `worldAllOk` no probe
rejects and the prober resolves; on `worldRejectOne` a probe rejects and the
prober errors. -/
theorem c1_witness :
    (∀ u ∈ downloadCatalogue ("pr1"), worldAllOk u.url ≠ FetchOutcome.reject) ∧
    (∃ rs, assetProber worldAllOk ("pr1") = Except.ok rs ∧
      List.Forall₂
        (fun (u : UrlTemplate) (r : UrlInfo) =>
          ∀ ok cl, worldAllOk u.url = FetchOutcome.resolve ok cl →
            r.ok = ok ∧ r.size = jsStringToNumber (cl.getD ("0")))
        (downloadCatalogue ("pr1")) rs) ∧
    (∃ u ∈ downloadCatalogue ("pr1"), worldRejectOne u.url = FetchOutcome.reject) ∧
    (∃ e, assetProber worldRejectOne ("pr1") = Except.error e) :=
  ⟨by decide,
    (c1_probe_failure_semantics worldAllOk ("pr1")).1 (by decide),
    by decide,
    (c1_probe_failure_semantics worldRejectOne ("pr1")).2 (by decide)⟩

/-- C5: the assembled progress is the source fraction times 100, rounded to
the nearest integer (half up), when the fraction is present, and is absent
when the fraction is absent — never coerced to 0. -/
theorem c5_progress_normalization (snapshot : Snapshot) (world : FetchWorld)
    (locale : String) (projectId : String) (props : Props) (project : CentroidFeature)
    (hfind : snapshot.centroids.features.find?
      (fun feature => feature.properties.project_id == projectId) = some project)
    (hok : getStaticProps snapshot world locale projectId = Except.ok props) :
    props.totalProgress = (project.properties.progress).map (fun p => round (p * 100)) ∧
    (project.properties.progress = none → props.totalProgress = none) := by
  obtain ⟨project2, rs, hfind2, hprob, hprops⟩ :=
    getStaticProps_ok_elim snapshot world locale projectId props hok
  rw [hfind] at hfind2
  injection hfind2 with hpj
  subst hpj
  subst hprops
  constructor
  · cases hp : project.properties.progress with
    | none => simp [assembledProps, hp]
    | some p => simp [assembledProps, hp, jsMathRound_eq_round, jsMul_eq]
  · intro hnone
    simp [assembledProps, hnone]

/-- Witness for C5: progress fraction 4567/10000 yields 46; absent progress
yields an absent output. -/
theorem c5_witness :
    (snapAB.centroids.features.find?
      (fun feature => feature.properties.project_id == ("pr1")) = some projectA) ∧
    (getStaticProps snapAB worldAllOk ("en") ("pr1") = Except.ok propsA) ∧
    (propsA.totalProgress = (projectA.properties.progress).map (fun p => round (p * 100)) ∧
      (projectA.properties.progress = none → propsA.totalProgress = none)) ∧
    propsA.totalProgress = some 46 ∧
    (snapAB.centroids.features.find?
      (fun feature => feature.properties.project_id == ("pr2")) = some projectB) ∧
    (getStaticProps snapAB worldAllOk ("en") ("pr2") = Except.ok propsB) ∧
    (propsB.totalProgress = (projectB.properties.progress).map (fun p => round (p * 100)) ∧
      (projectB.properties.progress = none → propsB.totalProgress = none)) ∧
    propsB.totalProgress = none :=
  ⟨by decide, by rfl,
    c5_progress_normalization snapAB worldAllOk ("en") ("pr1") propsA projectA
      (by decide) (by rfl),
    by decide, by decide, by rfl,
    c5_progress_normalization snapAB worldAllOk ("en") ("pr2") propsB projectB
      (by decide) (by rfl),
    by decide⟩

/-- C6: the assembled area is the source area rounded to the nearest integer
when present, and 0 when the source area is absent (absence is coerced to 0
before rounding), so the output is always a number. -/
theorem c6_area_normalization (snapshot : Snapshot) (world : FetchWorld)
    (locale : String) (projectId : String) (props : Props) (project : CentroidFeature)
    (hfind : snapshot.centroids.features.find?
      (fun feature => feature.properties.project_id == projectId) = some project)
    (hok : getStaticProps snapshot world locale projectId = Except.ok props) :
    props.totalArea = round (((project.properties.area_sqkm).getD 0 : ℚ)) ∧
    (project.properties.area_sqkm = none → props.totalArea = 0) := by
  obtain ⟨project2, rs, hfind2, hprob, hprops⟩ :=
    getStaticProps_ok_elim snapshot world locale projectId props hok
  rw [hfind] at hfind2
  injection hfind2 with hpj
  subst hpj
  subst hprops
  constructor
  · simp [assembledProps, jsMathRound_eq_round]
  · intro hnone
    simp [assembledProps, hnone, jsMathRound_eq_round]

/-- Witness for C6: area 123/10 yields 12; absent area yields 0. -/
theorem c6_witness :
    (snapAB.centroids.features.find?
      (fun feature => feature.properties.project_id == ("pr1")) = some projectA) ∧
    (getStaticProps snapAB worldAllOk ("en") ("pr1") = Except.ok propsA) ∧
    (propsA.totalArea = round (((projectA.properties.area_sqkm).getD 0 : ℚ)) ∧
      (projectA.properties.area_sqkm = none → propsA.totalArea = 0)) ∧
    propsA.totalArea = 12 ∧
    (snapAB.centroids.features.find?
      (fun feature => feature.properties.project_id == ("pr2")) = some projectB) ∧
    (getStaticProps snapAB worldAllOk ("en") ("pr2") = Except.ok propsB) ∧
    (propsB.totalArea = round (((projectB.properties.area_sqkm).getD 0 : ℚ)) ∧
      (projectB.properties.area_sqkm = none → propsB.totalArea = 0)) ∧
    propsB.totalArea = 0 :=
  ⟨by decide, by rfl,
    c6_area_normalization snapAB worldAllOk ("en") ("pr1") propsA projectA
      (by decide) (by rfl),
    by decide, by decide, by rfl,
    c6_area_normalization snapAB worldAllOk ("en") ("pr2") propsB projectB
      (by decide) (by rfl),
    by decide⟩

/-- C8: when no geometry feature matches the identifier, the build still
succeeds (all probes settling), the assembled geometry is absent rather than
an error, and the required summary record resolves unaffected. -/
theorem c8_missing_geometry_degrades (snapshot : Snapshot) (world : FetchWorld)
    (locale : String) (projectId : String) (project : CentroidFeature)
    (hfind : snapshot.centroids.features.find?
      (fun feature => feature.properties.project_id == projectId) = some project)
    (hgeo : ∀ f ∈ snapshot.geometries.features, f.properties.project_id ≠ projectId)
    (hworld : ∀ u ∈ downloadCatalogue projectId, world u.url ≠ FetchOutcome.reject) :
    ∃ props, getStaticProps snapshot world locale projectId = Except.ok props ∧
      props.projectGeoJSON = none ∧
      props.name = project.properties.name ∧
      props.status = project.properties.status ∧
      props.totalContributors = project.properties.number_of_users ∧
      props.description = contentRenderer project.properties.project_details := by
  obtain ⟨rs, hrs⟩ := promiseAll_ok_of_forall (probeUrl world)
    (downloadCatalogue projectId)
    (fun u hu => probeUrl_ok_of_not_reject world u (hworld u hu))
  have hprob : assetProber world projectId = Except.ok rs := hrs
  have hgfind : snapshot.geometries.features.find?
      (fun feature => feature.properties.project_id == projectId) = none :=
    List.find?_eq_none.mpr (fun f hf => by simpa using hgeo f hf)
  refine ⟨assembledProps snapshot locale projectId project rs,
    getStaticProps_ok_intro snapshot world locale projectId project rs hfind hprob,
    ?_, rfl, rfl, rfl, rfl⟩
  simp [assembledProps, hgfind]

/-- Witness for C8: `pr2` has no geometry feature in `snapAB`, yet its page
builds with an absent geometry; for contrast, `pr1` does get its geometry. -/
theorem c8_witness :
    (snapAB.centroids.features.find?
      (fun feature => feature.properties.project_id == ("pr2")) = some projectB) ∧
    (∀ f ∈ snapAB.geometries.features, f.properties.project_id ≠ ("pr2")) ∧
    (∀ u ∈ downloadCatalogue ("pr2"), worldAllOk u.url ≠ FetchOutcome.reject) ∧
    (∃ props, getStaticProps snapAB worldAllOk ("en") ("pr2") = Except.ok props ∧
      props.projectGeoJSON = none ∧
      props.name = projectB.properties.name ∧
      props.status = projectB.properties.status ∧
      props.totalContributors = projectB.properties.number_of_users ∧
      props.description = contentRenderer projectB.properties.project_details) ∧
    propsB.projectGeoJSON = none ∧
    propsA.projectGeoJSON = some ("POLYGON-1") :=
  ⟨by decide, by decide, by decide,
    c8_missing_geometry_degrades snapAB worldAllOk ("en") ("pr2") projectB
      (by decide) (by decide) (by decide),
    by decide, by decide⟩

/-- C9: the per-page build is deterministic in the upstream snapshot — two
successful runs over the same snapshot agree on every field except the
per-asset `ok`/`size` entries, whose rows still agree on name, URL and file
kind; and if the asset host answered identically, the two page records are
identical. -/
theorem c9_determinism (snapshot : Snapshot) (world1 world2 : FetchWorld)
    (locale : String) (projectId : String) (props1 props2 : Props)
    (h1 : getStaticProps snapshot world1 locale projectId = Except.ok props1)
    (h2 : getStaticProps snapshot world2 locale projectId = Except.ok props2) :
    props1.translations = props2.translations ∧
    props1.totalProgress = props2.totalProgress ∧
    props1.totalArea = props2.totalArea ∧
    props1.totalContributors = props2.totalContributors ∧
    props1.name = props2.name ∧
    props1.description = props2.description ∧
    props1.status = props2.status ∧
    props1.projectGeoJSON = props2.projectGeoJSON ∧
    props1.history = props2.history ∧
    List.Forall₂
      (fun (r1 r2 : UrlInfo) => r1.name = r2.name ∧ r1.url = r2.url ∧ r1.type = r2.type)
      props1.urls props2.urls ∧
    ((∀ u ∈ downloadCatalogue projectId, world1 u.url = world2 u.url) →
      props1 = props2) := by
  obtain ⟨pj1, rs1, hf1, hp1, he1⟩ :=
    getStaticProps_ok_elim snapshot world1 locale projectId props1 h1
  obtain ⟨pj2, rs2, hf2, hp2, he2⟩ :=
    getStaticProps_ok_elim snapshot world2 locale projectId props2 h2
  rw [hf1] at hf2
  injection hf2 with hpj
  subst hpj
  subst he1
  subst he2
  refine ⟨rfl, rfl, rfl, rfl, rfl, rfl, rfl, rfl, rfl, ?_, ?_⟩
  · have hfa1 := assetProber_ok_forall₂ world1 projectId rs1 hp1
    have hfa2 := assetProber_ok_forall₂ world2 projectId rs2 hp2
    simp only [assembledProps]
    rw [List.forall₂_iff_get] at hfa1 hfa2 ⊢
    obtain ⟨hl1, hg1⟩ := hfa1
    obtain ⟨hl2, hg2⟩ := hfa2
    refine ⟨by rw [← hl1, ← hl2], fun i hi1 hi2 => ?_⟩
    have hic : i < (downloadCatalogue projectId).length := by rw [hl1]; exact hi1
    obtain ⟨n1, u1, t1⟩ := probeUrl_ok_fields world1 _ _ (hg1 i hic hi1)
    obtain ⟨n2, u2, t2⟩ := probeUrl_ok_fields world2 _ _ (hg2 i hic hi2)
    exact ⟨by rw [n1, n2], by rw [u1, u2], by rw [t1, t2]⟩
  · intro hcong
    have hmaps : urlResponsePromises world1 (downloadCatalogue projectId) =
        urlResponsePromises world2 (downloadCatalogue projectId) := by
      unfold urlResponsePromises
      apply List.map_congr_left
      intro u hu
      unfold probeUrl
      rw [hcong u hu]
    have hprob12 : assetProber world1 projectId = assetProber world2 projectId := by
      unfold assetProber
      rw [hmaps]
    rw [hp1, hp2] at hprob12
    injection hprob12 with hrs
    rw [hrs]

/-- Witness for C9, applied to two different asset-host behaviours
(`worldAllOk` and `worldNotOk`) over the same snapshot: every field except
the probe rows agrees, and the resulting records indeed differ only there. -/
theorem c9_witness :
    (getStaticProps snapAB worldAllOk ("en") ("pr1") = Except.ok propsA) ∧
    (getStaticProps snapAB worldNotOk ("en") ("pr1") = Except.ok propsC) ∧
    (propsA.translations = propsC.translations ∧
      propsA.totalProgress = propsC.totalProgress ∧
      propsA.totalArea = propsC.totalArea ∧
      propsA.totalContributors = propsC.totalContributors ∧
      propsA.name = propsC.name ∧
      propsA.description = propsC.description ∧
      propsA.status = propsC.status ∧
      propsA.projectGeoJSON = propsC.projectGeoJSON ∧
      propsA.history = propsC.history ∧
      List.Forall₂
        (fun (r1 r2 : UrlInfo) => r1.name = r2.name ∧ r1.url = r2.url ∧ r1.type = r2.type)
        propsA.urls propsC.urls ∧
      ((∀ u ∈ downloadCatalogue ("pr1"), worldAllOk u.url = worldNotOk u.url) →
        propsA = propsC)) ∧
    propsA ≠ propsC :=
  ⟨by rfl, by rfl,
    c9_determinism snapAB worldAllOk worldNotOk ("en") ("pr1") propsA propsC
      (by rfl) (by rfl),
    by decide⟩

/-- C7: the content renderer outputs HTML of the body only — for any document
that opens with a frontmatter header between `---` delimiter lines, the
header is discarded at the line level; on the spec's example the heading
renders as an `<h1>` block and the following line as a `<p>` block, a literal
escaped newline in the body is normalized to a real line break before
conversion, and no part of the frontmatter appears in the output. -/
theorem c7_content_renderer :
    (∀ headerLines bodyLines, fmDelim ∉ headerLines →
      matterContentLines (fmDelim :: (headerLines ++ fmDelim :: bodyLines)) = bodyLines) ∧
    contentRenderer ("---\ntitle: x\n---\n# Hello\nWorld") = "<h1>Hello</h1>\n<p>World</p>\n" ∧
    contentRenderer ("---\ntitle: x\n---\n# Hello\\nWorld") =
      contentRenderer ("---\ntitle: x\n---\n# Hello\nWorld") ∧
    hasSubstr (contentRenderer ("---\ntitle: x\n---\n# Hello\nWorld")) ("<h1>Hello</h1>") = true ∧
    hasSubstr (contentRenderer ("---\ntitle: x\n---\n# Hello\nWorld")) ("<p>World</p>") = true ∧
    hasSubstr (contentRenderer ("---\ntitle: x\n---\n# Hello\nWorld")) ("title: x") = false := by
  refine ⟨?_, by decide, by decide, by decide, by decide, by decide⟩
  intro headerLines bodyLines h
  simp [matterContentLines, splitFrontmatter_append headerLines bodyLines h]

/-- Witness for C7, instantiating the header-stripping clause on the spec's
example document. -/
theorem c7_witness :
    (fmDelim ∉ [("title: x").data]) ∧
    matterContentLines
        (fmDelim :: ([("title: x").data] ++ fmDelim :: [("# Hello").data, ("World").data])) =
      [("# Hello").data, ("World").data] :=
  ⟨by decide,
    c7_content_renderer.1 [("title: x").data] [("# Hello").data, ("World").data] (by decide)⟩

/-- C4: for a catalogue of distinct project identifiers and a list of
distinct locales, the path enumeration has exactly M × N entries, contains no
duplicate, and contains a pair exactly when its identifier is catalogued and
its locale supported. -/
theorem c4_path_enumeration (locales : List String) (projects : CentroidCollection)
    (hl : locales.Nodup)
    (hp : (projects.features.map (fun f => f.properties.project_id)).Nodup) :
    (getStaticPaths locales projects).length =
      projects.features.length * locales.length ∧
    (getStaticPaths locales projects).Nodup ∧
    (∀ pid lng, (⟨pid, lng⟩ : PathParams) ∈ getStaticPaths locales projects ↔
      (pid ∈ projects.features.map (fun f => f.properties.project_id) ∧ lng ∈ locales)) := by
  refine ⟨?_, ?_, ?_⟩
  · simp [getStaticPaths, List.length_flatMap, Function.comp_def]
  · rw [getStaticPaths]
    rw [List.nodup_flatMap]
    constructor
    · intro feature _
      refine List.Nodup.map ?_ hl
      intro a b hab
      simpa using congrArg PathParams.locale hab
    · have hp2 : projects.features.Pairwise
          (fun a b => a.properties.project_id ≠ b.properties.project_id) := by
        rw [List.Nodup, List.pairwise_map] at hp
        exact hp
      refine hp2.imp ?_
      intro a b hab x hxa hxb
      simp only [List.mem_map] at hxa hxb
      obtain ⟨la, _, hea⟩ := hxa
      obtain ⟨lb, _, heb⟩ := hxb
      apply hab
      have ha := congrArg PathParams.id hea
      have hb := congrArg PathParams.id heb
      simp at ha hb
      rw [ha, hb]
  · intro pid lng
    simp only [getStaticPaths, List.mem_flatMap, List.mem_map]
    constructor
    · rintro ⟨feature, hfe, lc, hlc, he⟩
      have h1 := congrArg PathParams.id he
      have h2 := congrArg PathParams.locale he
      simp at h1 h2
      exact ⟨⟨feature, hfe, h1⟩, h2 ▸ hlc⟩
    · rintro ⟨⟨feature, hfe, hid⟩, hlng⟩
      exact ⟨feature, hfe, lng, hlng, by rw [hid]⟩

/-- Witness for C4 at the concrete two-project catalogue and two locales:
2 × 2 = 4 unique pairs. -/
theorem c4_witness :
    ((["en", "de"] : List String).Nodup) ∧
    ((snapAB.centroids.features.map (fun f => f.properties.project_id)).Nodup) ∧
    ((getStaticPaths ["en", "de"] snapAB.centroids).length =
        snapAB.centroids.features.length * (["en", "de"] : List String).length ∧
      (getStaticPaths ["en", "de"] snapAB.centroids).Nodup ∧
      (∀ pid lng,
        (⟨pid, lng⟩ : PathParams) ∈ getStaticPaths ["en", "de"] snapAB.centroids ↔
        (pid ∈ snapAB.centroids.features.map (fun f => f.properties.project_id) ∧
          lng ∈ (["en", "de"] : List String)))) ∧
    (getStaticPaths ["en", "de"] snapAB.centroids).length = 4 :=
  ⟨by decide, by decide,
    c4_path_enumeration ["en", "de"] snapAB.centroids (by decide) (by decide),
    by decide⟩

end ProjectDetailPage
